import Mathlib

/-!
Verification of the pycmor_test_data_fesom package (FESOM test-data fixtures).

The package has two model-run variants, Fesom2p6ModelRun (fesom_2p6.py) and
FesomDevModelRun (fesom_dev.py).  Each variant supplies a config lookup, a
real-data fetch procedure, a stub-data generation procedure and a static
mesh-file synthesizer that writes six small fixed-format text files.

Shallow embedding choices:
* A filesystem path is a list of path components (`FsPath`); a filesystem is a
  map from paths to optional file contents (`FS`).  Directory creation
  (mkdir with exist_ok) has no observable effect in this model.
* Python's float computations in the mesh synthesizer only ever produce
  values that print exactly at the written precision (multiples of 0.1 and
  0.05 rounded to 7 decimals, multiples of 50 at 1 decimal), so each written
  number is embedded as a sign plus a magnitude in scaled-integer units
  (1e-7 for the 7-decimal fields, 1e-1 for depth.out).  The float product
  -100.0 * (i // 10) is IEEE negative zero for i < 10, so the minus sign is
  always printed for the depth field; the embedding keeps an explicit sign
  flag to reproduce that byte-for-byte.
* External collaborators owned by the pycmor package (the stub-manifest
  interpreter generate_stub_files, the archive fetcher fetch_and_extract,
  and the subprocess runner used for git/git-lfs) are parameters of the
  embedded functions, as the spec treats them as interfaces only.
-/

set_option maxRecDepth 100000

/-- A filesystem path, as a list of components. -/
abbrev FsPath := List String

/-- A filesystem: maps a path to the contents of the file there, if any. -/
abbrev FS := FsPath → Option String

/-- Opening a file with mode "w" and writing content: the previous content
at that path (if any) is discarded. -/
def writeFile (p : FsPath) (c : String) (fs : FS) : FS :=
  fun q => if q = p then some c else fs q

/-- Left-pad a string with spaces to the given width (Python format
specifier of the shape `{x:8d}` or the outer width of `{x:14.7f}`). -/
def padLeft (w : Nat) (s : String) : String :=
  String.mk (List.replicate (w - s.length) ' ') ++ s

/-- Python `{i:8d}` for a natural number. -/
def fmtInt8 (n : Nat) : String :=
  padLeft 8 (Nat.repr n)

/-- Left-pad a string with zeros to the given width. -/
def padZeros (w : Nat) (s : String) : String :=
  String.mk (List.replicate (w - s.length) '0') ++ s

/-- Fixed-point rendering with `dec` decimals of a sign-magnitude number
whose magnitude is in units of 10^(-dec).  `neg = true` prints a minus sign
even when the magnitude is zero (IEEE negative zero). -/
def fmtFixed (dec : Nat) (neg : Bool) (mag : Nat) : String :=
  (if neg then "-" else "")
    ++ Nat.repr (mag / 10 ^ dec) ++ "."
    ++ padZeros dec (Nat.repr (mag % 10 ^ dec))

/-- Python `{x:14.7f}` of a sign-magnitude value in units of 1e-7. -/
def fmtF7w14 (neg : Bool) (magE7 : Nat) : String :=
  padLeft 14 (fmtFixed 7 neg magE7)

namespace Fesom2p6

/-- One record line of nod2d.out in Fesom2p6ModelRun._create_minimal_mesh_files:
lon = 300.0 + i*0.1, lat = 74.0 + i*0.05, written as
`f"{i:8d} {lon:14.7f}  {lat:14.7f}        0\n"`. -/
def nod2dLine (i : Nat) : String :=
  fmtInt8 i ++ " " ++ fmtF7w14 false (3000000000 + i * 1000000)
    ++ "  " ++ fmtF7w14 false (740000000 + i * 500000) ++ "        0\n"

/-- Content of nod2d.out: header "10" then records for i = 1..10. -/
def nod2dContent : String :=
  "10\n" ++ String.join ((List.range 10).map (fun k => nod2dLine (k + 1)))

/-- The two lines of record i of elem2d.out: with n1 = i, n2 = i+1, n3 = i+2,
`f"{i:8d} {n1:8d} {n2:8d}\n"` then `f"{n2:8d} {n3:8d} {(i % 8) + 1:8d}\n"`. -/
def elem2dLines (i : Nat) : String :=
  fmtInt8 i ++ " " ++ fmtInt8 i ++ " " ++ fmtInt8 (i + 1) ++ "\n"
    ++ fmtInt8 (i + 1) ++ " " ++ fmtInt8 (i + 2) ++ " " ++ fmtInt8 (i % 8 + 1) ++ "\n"

/-- Content of elem2d.out: header "5" then two-line records for i = 1..5. -/
def elem2dContent : String :=
  "5\n" ++ String.join ((List.range 5).map (fun k => elem2dLines (k + 1)))

/-- One record line of nod3d.out: lon = 300.0 + (i % 10)*0.1,
lat = 74.0 + (i % 10)*0.05, depth = -100.0 * (i // 10), written as
`f"{i:8d} {lon:14.7f}  {lat:14.7f} {depth:14.7f}        0\n"`.
The depth sign flag is true because the float -100.0 * (i // 10) is
negative zero when i < 10. -/
def nod3dLine (i : Nat) : String :=
  fmtInt8 i ++ " " ++ fmtF7w14 false (3000000000 + i % 10 * 1000000)
    ++ "  " ++ fmtF7w14 false (740000000 + i % 10 * 500000)
    ++ " " ++ fmtF7w14 true (1000000000 * (i / 10)) ++ "        0\n"

/-- Content of nod3d.out: header "30" then records for i = 1..30. -/
def nod3dContent : String :=
  "30\n" ++ String.join ((List.range 30).map (fun k => nod3dLine (k + 1)))

/-- One record line of elem3d.out: nodes (i, i+1, i+2, i+10), written as
`f"{n1:8d} {n2:8d} {n3:8d} {n4:8d}\n"`. -/
def elem3dLine (i : Nat) : String :=
  fmtInt8 i ++ " " ++ fmtInt8 (i + 1) ++ " " ++ fmtInt8 (i + 2)
    ++ " " ++ fmtInt8 (i + 10) ++ "\n"

/-- Content of elem3d.out: header "10" then records for i = 1..10. -/
def elem3dContent : String :=
  "10\n" ++ String.join ((List.range 10).map (fun k => elem3dLine (k + 1)))

/-- Content of aux3d.out: layer count 3 then layer start indices 1, 11, 21. -/
def aux3dContent : String :=
  "3\n       1\n      11\n      21\n"

/-- One line of depth.out for i = 0..9: `f"   {-100.0 - i * 50:.1f}\n"`,
value -100.0 - 50*i in units of 0.1. -/
def depthLine (i : Nat) : String :=
  "   " ++ fmtFixed 1 true (1000 + i * 500) ++ "\n"

/-- Content of depth.out: ten lines, no header. -/
def depthContent : String :=
  String.join ((List.range 10).map (fun k => depthLine k))

/-- The six mesh files written by _create_minimal_mesh_files, in write order. -/
def meshFiles : List (String × String) :=
  [("nod2d.out", nod2dContent), ("elem2d.out", elem2dContent),
   ("nod3d.out", nod3dContent), ("elem3d.out", elem3dContent),
   ("aux3d.out", aux3dContent), ("depth.out", depthContent)]

/-- Fesom2p6ModelRun._create_minimal_mesh_files: writes the six mesh files
into mesh_dir, in source order. -/
def create_minimal_mesh_files (mesh_dir : FsPath) (fs : FS) : FS :=
  meshFiles.foldl (fun s nc => writeFile (mesh_dir ++ [nc.1]) nc.2 s) fs

end Fesom2p6

namespace FesomDev

/-- One record line of nod2d.out in FesomDevModelRun._create_minimal_mesh_files:
lon = 300.0 + i*0.1, lat = 74.0 + i*0.05, written as
`f"{i:8d} {lon:14.7f}  {lat:14.7f}        0\n"`. -/
def nod2dLine (i : Nat) : String :=
  fmtInt8 i ++ " " ++ fmtF7w14 false (3000000000 + i * 1000000)
    ++ "  " ++ fmtF7w14 false (740000000 + i * 500000) ++ "        0\n"

/-- Content of nod2d.out: header "10" then records for i = 1..10. -/
def nod2dContent : String :=
  "10\n" ++ String.join ((List.range 10).map (fun k => nod2dLine (k + 1)))

/-- The two lines of record i of elem2d.out: with n1 = i, n2 = i+1, n3 = i+2,
`f"{i:8d} {n1:8d} {n2:8d}\n"` then `f"{n2:8d} {n3:8d} {(i % 8) + 1:8d}\n"`. -/
def elem2dLines (i : Nat) : String :=
  fmtInt8 i ++ " " ++ fmtInt8 i ++ " " ++ fmtInt8 (i + 1) ++ "\n"
    ++ fmtInt8 (i + 1) ++ " " ++ fmtInt8 (i + 2) ++ " " ++ fmtInt8 (i % 8 + 1) ++ "\n"

/-- Content of elem2d.out: header "5" then two-line records for i = 1..5. -/
def elem2dContent : String :=
  "5\n" ++ String.join ((List.range 5).map (fun k => elem2dLines (k + 1)))

/-- One record line of nod3d.out: lon = 300.0 + (i % 10)*0.1,
lat = 74.0 + (i % 10)*0.05, depth = -100.0 * (i // 10), written as
`f"{i:8d} {lon:14.7f}  {lat:14.7f} {depth:14.7f}        0\n"`.
The depth sign flag is true because the float -100.0 * (i // 10) is
negative zero when i < 10. -/
def nod3dLine (i : Nat) : String :=
  fmtInt8 i ++ " " ++ fmtF7w14 false (3000000000 + i % 10 * 1000000)
    ++ "  " ++ fmtF7w14 false (740000000 + i % 10 * 500000)
    ++ " " ++ fmtF7w14 true (1000000000 * (i / 10)) ++ "        0\n"

/-- Content of nod3d.out: header "30" then records for i = 1..30. -/
def nod3dContent : String :=
  "30\n" ++ String.join ((List.range 30).map (fun k => nod3dLine (k + 1)))

/-- One record line of elem3d.out: nodes (i, i+1, i+2, i+10), written as
`f"{n1:8d} {n2:8d} {n3:8d} {n4:8d}\n"`. -/
def elem3dLine (i : Nat) : String :=
  fmtInt8 i ++ " " ++ fmtInt8 (i + 1) ++ " " ++ fmtInt8 (i + 2)
    ++ " " ++ fmtInt8 (i + 10) ++ "\n"

/-- Content of elem3d.out: header "10" then records for i = 1..10. -/
def elem3dContent : String :=
  "10\n" ++ String.join ((List.range 10).map (fun k => elem3dLine (k + 1)))

/-- Content of aux3d.out: layer count 3 then layer start indices 1, 11, 21. -/
def aux3dContent : String :=
  "3\n       1\n      11\n      21\n"

/-- One line of depth.out for i = 0..9: `f"   {-100.0 - i * 50:.1f}\n"`,
value -100.0 - 50*i in units of 0.1. -/
def depthLine (i : Nat) : String :=
  "   " ++ fmtFixed 1 true (1000 + i * 500) ++ "\n"

/-- Content of depth.out: ten lines, no header. -/
def depthContent : String :=
  String.join ((List.range 10).map (fun k => depthLine k))

/-- The six mesh files written by _create_minimal_mesh_files, in write order. -/
def meshFiles : List (String × String) :=
  [("nod2d.out", nod2dContent), ("elem2d.out", elem2dContent),
   ("nod3d.out", nod3dContent), ("elem3d.out", elem3dContent),
   ("aux3d.out", aux3dContent), ("depth.out", depthContent)]

/-- FesomDevModelRun._create_minimal_mesh_files: writes the six mesh files
into mesh_dir, in source order (duplicated from the 2.6 variant in the
source, so embedded twice as well). -/
def create_minimal_mesh_files (mesh_dir : FsPath) (fs : FS) : FS :=
  meshFiles.foldl (fun s nc => writeFile (mesh_dir ++ [nc.1]) nc.2 s) fs

end FesomDev

/-! ## Parsing the generated text files

These functions are verification-side apparatus: they read records back out
of the generated content strings so that the claims can be stated at the
level of indices, coordinates and node numbers rather than raw bytes. -/

/-- Tail-recursive worker for splitOnChar: cur is the current chunk
reversed, acc the finished chunks reversed. -/
def splitOnCharAux (c : Char) (cur : List Char) (acc : List (List Char)) :
    List Char → List (List Char)
  | [] => (cur.reverse :: acc).reverse
  | x :: xs =>
    if x = c then splitOnCharAux c [] (cur.reverse :: acc) xs
    else splitOnCharAux c (x :: cur) acc xs

/-- Split a character list on a separator character; the separator is not
kept and empty chunks are preserved. -/
def splitOnChar (c : Char) (l : List Char) : List (List Char) :=
  splitOnCharAux c [] [] l

/-- The lines of a file content that ends in a newline (the final empty
chunk after the last newline is dropped). -/
def fileLines (s : String) : List String :=
  ((splitOnChar (Char.ofNat 10) s.data).map (fun l => String.mk l)).dropLast

/-- The whitespace-separated fields of a record line. -/
def fieldsOf (s : String) : List (List Char) :=
  (splitOnChar ' ' s.data).filter (fun w => w ≠ [])

/-- Parse a nonempty list of decimal digits as a natural number. -/
def parseNatChars : List Char → Option Nat
  | [] => none
  | l => l.foldl
      (fun acc c =>
        acc.bind (fun a =>
          if c.isDigit then some (a * 10 + (c.toNat - 48)) else none))
      (some 0)

/-- Parse a fixed-point decimal with exactly `dec` digits after the point
into an integer in units of 10^(-dec).  A leading minus is allowed; a
parsed "-0.000..." yields 0. -/
def parseFixedChars (dec : Nat) (l : List Char) : Option Int :=
  let signed : Bool × List Char :=
    match l with
    | '-' :: rest => (true, rest)
    | _ => (false, l)
  match splitOnChar '.' signed.2 with
  | [ip, fp] =>
    if fp.length = dec then
      match parseNatChars ip, parseNatChars fp with
      | some a, some b =>
        some ((if signed.1 then -1 else 1) * ((a * 10 ^ dec + b : Nat) : Int))
      | _, _ => none
    else none
  | _ => none

/-- Parse a nod2d.out record line: (index, lonE7, latE7, flag). -/
def parseNod2d (s : String) : Option (Nat × Int × Int × Nat) :=
  match fieldsOf s with
  | [a, b, c, d] =>
    match parseNatChars a, parseFixedChars 7 b, parseFixedChars 7 c, parseNatChars d with
    | some i, some lon, some lat, some fl => some (i, lon, lat, fl)
    | _, _, _, _ => none
  | _ => none

/-- Parse a nod3d.out record line: (index, lonE7, latE7, depthE7, flag). -/
def parseNod3d (s : String) : Option (Nat × Int × Int × Int × Nat) :=
  match fieldsOf s with
  | [a, b, c, d, e] =>
    match parseNatChars a, parseFixedChars 7 b, parseFixedChars 7 c,
        parseFixedChars 7 d, parseNatChars e with
    | some i, some lon, some lat, some dep, some fl => some (i, lon, lat, dep, fl)
    | _, _, _, _, _ => none
  | _ => none

/-- Parse a connectivity line of three integer fields. -/
def parseTriple (s : String) : Option (Nat × Nat × Nat) :=
  match fieldsOf s with
  | [a, b, c] =>
    match parseNatChars a, parseNatChars b, parseNatChars c with
    | some x, some y, some z => some (x, y, z)
    | _, _, _ => none
  | _ => none

/-! ## Config lookup (both variants)

The configs property probes two fixed files under the package's fixtures
directory and returns an insertion-ordered mapping (cmip6 before cmip7) of
whichever exist.  Filesystem existence is a parameter; pkg_dir models
Path(__file__).parent. -/

/-- Fesom2p6ModelRun.configs. -/
def fesom_2p6_configs (fileExists : FsPath → Bool) (pkg_dir : FsPath) :
    List (String × FsPath) :=
  let fixtures_dir := pkg_dir ++ ["fixtures"]
  (if fileExists (fixtures_dir ++ ["config_cmip6_fesom_2p6.yaml"]) then
    [("cmip6", fixtures_dir ++ ["config_cmip6_fesom_2p6.yaml"])]
  else []) ++
  (if fileExists (fixtures_dir ++ ["config_cmip7_fesom_2p6.yaml"]) then
    [("cmip7", fixtures_dir ++ ["config_cmip7_fesom_2p6.yaml"])]
  else [])

/-- FesomDevModelRun.configs. -/
def fesom_dev_configs (fileExists : FsPath → Bool) (pkg_dir : FsPath) :
    List (String × FsPath) :=
  let fixtures_dir := pkg_dir ++ ["fixtures"]
  (if fileExists (fixtures_dir ++ ["config_cmip6_fesom_dev.yaml"]) then
    [("cmip6", fixtures_dir ++ ["config_cmip6_fesom_dev.yaml"])]
  else []) ++
  (if fileExists (fixtures_dir ++ ["config_cmip7_fesom_dev.yaml"]) then
    [("cmip7", fixtures_dir ++ ["config_cmip7_fesom_dev.yaml"])]
  else [])

/-! ## Real-data fetch (2.6 variant)

fetch_and_extract is external (pycmor.tutorial.data_fetcher); its result
directory and the filesystem existence predicate are parameters. -/

/-- Fesom2p6ModelRun.fetch_real_datadir: after the external fetch returns
data_dir, unwrap the nested fesom_2p6_pimesh directory if it exists. -/
def fesom_2p6_fetch_real_datadir (dirExists : FsPath → Bool) (data_dir : FsPath) :
    FsPath :=
  let inner_dir := data_dir ++ ["fesom_2p6_pimesh"]
  if dirExists inner_dir then inner_dir else data_dir

/-! ## Stub-data generation

generate_stub_files is external (pycmor.tutorial.stub_generator); it is
modelled as a parameter stubGen that transforms the filesystem given the
target stub directory and, per its contract, returns the directory it was
given (the 2.6 variant reassigns stub_dir to that return value). -/

/-- Fesom2p6ModelRun.generate_stub_datadir: delegate to the manifest
interpreter, then create the mesh files under stub_dir/input/fesom/mesh/pi;
returns the stub directory and the resulting filesystem. -/
def fesom_2p6_generate_stub_datadir (stubGen : FsPath → FS → FS)
    (stub_dir : FsPath) (fs : FS) : FsPath × FS :=
  let fs1 := stubGen stub_dir fs
  let mesh_dir := stub_dir ++ ["input", "fesom", "mesh", "pi"]
  (stub_dir, Fesom2p6.create_minimal_mesh_files mesh_dir fs1)

/-- FesomDevModelRun.generate_stub_datadir: delegate to the manifest
interpreter and return the stub directory; no mesh files are created here. -/
def fesom_dev_generate_stub_datadir (stubGen : FsPath → FS → FS)
    (stub_dir : FsPath) (fs : FS) : FsPath × FS :=
  (stub_dir, stubGen stub_dir fs)

/-- FesomDevModelRun.generate_stub_meshdir: delegate to the manifest
interpreter, then create the mesh files directly in stub_dir. -/
def fesom_dev_generate_stub_meshdir (stubGen : FsPath → FS → FS)
    (stub_dir : FsPath) (fs : FS) : FsPath × FS :=
  (stub_dir, FesomDev.create_minimal_mesh_files stub_dir (stubGen stub_dir fs))

/-! ## Mesh repository clone (dev variant)

subprocess.run is modelled by a command runner parameter; a run either
completes with a return code and captured stdout/stderr, or raises
subprocess.TimeoutExpired (whose timeout attribute equals the timeout
passed at the call site: 10 for the probe, 300 for the clone), or raises
FileNotFoundError (missing binary). -/

/-- Git repository URL for the FESOM PI mesh data (MESH_GIT_REPO). -/
def MESH_GIT_REPO : String := "https://gitlab.awi.de/fesom/pi"

/-- The two external commands fetch_real_meshdir can run. -/
inductive GitCmd
  | lfsVersion
  | gitClone
deriving DecidableEq, Repr

/-- Outcome of one subprocess.run call with check=False. -/
inductive RunOutcome
  | completed (returncode : Int) (stdout stderr : String)
  | timedOut
  | fileNotFound
deriving DecidableEq, Repr

/-- Observable result of fetch_real_meshdir: the returned path or the
message of the raised RuntimeError, the external commands invoked in
order, and whether the incomplete cache directory was removed. -/
structure MeshFetchResult where
  result : Except String FsPath
  commands : List GitCmd
  removedMeshDir : Bool
deriving Repr

/-- Error message when the git-lfs probe exits non-zero. -/
def lfsMissingMsg : String :=
  "git-lfs is not installed. Please install git-lfs to download mesh data.\nSee: https://git-lfs.github.com/"

/-- Error message when a subprocess raises FileNotFoundError. -/
def gitNotFoundMsg : String :=
  "git command not found. Please install git."

/-- Error message when the clone exits non-zero, carrying its stderr and
stdout. -/
def cloneFailMsg (stderr stdout : String) : String :=
  ("Failed to clone mesh repository from " ++ MESH_GIT_REPO ++ "\nGit error: ")
    ++ stderr ++ ("\nGit output: " ++ stdout ++ "\n")

/-- Error message when a subprocess raises TimeoutExpired with the given
timeout attribute. -/
def cloneTimeoutMsg (t : Nat) : String :=
  "Git clone timed out after " ++ Nat.repr t ++ " seconds"

/-- FesomDevModelRun.fetch_real_meshdir.  mesh_dir is cache_dir/pi_mesh_git;
meshDirExists and gitMetaExists give the existence of mesh_dir and of
mesh_dir/.git when the function starts. -/
def fesom_dev_fetch_real_meshdir (cache_dir : FsPath)
    (meshDirExists gitMetaExists : Bool) (run : GitCmd → RunOutcome) :
    MeshFetchResult :=
  let mesh_dir := cache_dir ++ ["pi_mesh_git"]
  if meshDirExists && gitMetaExists then
    { result := .ok mesh_dir, commands := [], removedMeshDir := false }
  else
    match run .lfsVersion with
    | .timedOut =>
      { result := .error (cloneTimeoutMsg 10), commands := [.lfsVersion],
        removedMeshDir := false }
    | .fileNotFound =>
      { result := .error gitNotFoundMsg, commands := [.lfsVersion],
        removedMeshDir := false }
    | .completed rc _ _ =>
      if rc ≠ 0 then
        { result := .error lfsMissingMsg, commands := [.lfsVersion],
          removedMeshDir := false }
      else
        let removed := meshDirExists
        match run .gitClone with
        | .timedOut =>
          { result := .error (cloneTimeoutMsg 300),
            commands := [.lfsVersion, .gitClone], removedMeshDir := removed }
        | .fileNotFound =>
          { result := .error gitNotFoundMsg,
            commands := [.lfsVersion, .gitClone], removedMeshDir := removed }
        | .completed rc2 out2 err2 =>
          if rc2 ≠ 0 then
            { result := .error (cloneFailMsg err2 out2),
              commands := [.lfsVersion, .gitClone], removedMeshDir := removed }
          else
            { result := .ok mesh_dir,
              commands := [.lfsVersion, .gitClone], removedMeshDir := removed }

/-- The string pat occurs contiguously inside s. -/
def strContains (s pat : String) : Prop :=
  ∃ a b : String, s = a ++ pat ++ b

/-- The filesystem holds each listed file, with the given content, directly
under root. -/
def fsHasFiles (root : FsPath) : List (String × String) → FS → Prop
  | [], _ => True
  | nc :: rest, fs => fs (root ++ [nc.1]) = some nc.2 ∧ fsHasFiles root rest fs

/-- Longitude and latitude of a parsed nod3d record. -/
def nod3dLonLat (r : Nat × Int × Int × Int × Nat) : Int × Int :=
  (r.2.1, r.2.2.1)

/-- Longitude and latitude of a parsed nod2d record. -/
def nod2dLonLat (r : Nat × Int × Int × Nat) : Int × Int :=
  (r.2.1, r.2.2.1)

/-- Command runner for witnesses: the git-lfs probe succeeds and the clone
exits with code 1 and captured output. -/
def cloneFailRunner : GitCmd → RunOutcome
  | .lfsVersion => .completed 0 "" ""
  | .gitClone => .completed 1 "outtext" "errtext"


/-! ## Helper lemmas -/

/-- After the 2.6 synthesizer runs, all six mesh files are present under
mesh_dir with their generated contents. -/
theorem fesom_2p6_create_reads (d : FsPath) (fs : FS) :
    fsHasFiles d Fesom2p6.meshFiles (Fesom2p6.create_minimal_mesh_files d fs) := by
  simp [Fesom2p6.create_minimal_mesh_files, Fesom2p6.meshFiles, fsHasFiles, writeFile]

/-- After the dev synthesizer runs, all six mesh files are present under
mesh_dir with their generated contents. -/
theorem fesom_dev_create_reads (d : FsPath) (fs : FS) :
    fsHasFiles d FesomDev.meshFiles (FesomDev.create_minimal_mesh_files d fs) := by
  simp [FesomDev.create_minimal_mesh_files, FesomDev.meshFiles, fsHasFiles, writeFile]

/-! ## Claims -/

/-- C6: for every target directory, the synthesizer writes nod2d.out with
header line "10" followed by exactly 10 records, where the record at
1-based index i has index i, longitude 300.0 + i*0.1 and latitude
74.0 + i*0.05 exactly at the written 7-decimal precision (values in units
of 1e-7), and trailing flag 0.  Stated for both variants (identical
content). -/
theorem claim_C6_nod2d_records (d : FsPath) (fs : FS) :
    (Fesom2p6.create_minimal_mesh_files d fs) (d ++ ["nod2d.out"])
        = some Fesom2p6.nod2dContent
    ∧ (FesomDev.create_minimal_mesh_files d fs) (d ++ ["nod2d.out"])
        = some FesomDev.nod2dContent
    ∧ FesomDev.nod2dContent = Fesom2p6.nod2dContent
    ∧ (fileLines Fesom2p6.nod2dContent).getD 0 "" = "10"
    ∧ (fileLines Fesom2p6.nod2dContent).length = 11
    ∧ ∀ k : Fin 10,
        parseNod2d ((fileLines Fesom2p6.nod2dContent).getD (k.val + 1) "")
          = some (k.val + 1, (3000000000 + (k.val + 1) * 1000000 : Int),
              (740000000 + (k.val + 1) * 500000 : Int), 0) :=
  ⟨(fesom_2p6_create_reads d fs).1, (fesom_dev_create_reads d fs).1, rfl,
   by decide, by decide, by decide⟩

/-- C10: in elem2d.out the modular expression (i % 8) + 1 never wraps for
the written records: for every record index i in 1..5 it equals i + 1, so
the second connectivity line of record i is exactly (i+1, i+2, i+1),
repeating its first node index as its third.  The file has header "5" and
5 two-line records. -/
theorem claim_C10_elem2d_no_wrap (d : FsPath) (fs : FS) :
    (Fesom2p6.create_minimal_mesh_files d fs) (d ++ ["elem2d.out"])
        = some Fesom2p6.elem2dContent
    ∧ FesomDev.elem2dContent = Fesom2p6.elem2dContent
    ∧ (fileLines Fesom2p6.elem2dContent).getD 0 "" = "5"
    ∧ (fileLines Fesom2p6.elem2dContent).length = 11
    ∧ (∀ k : Fin 5, (k.val + 1) % 8 + 1 = k.val + 1 + 1)
    ∧ ∀ k : Fin 5,
        parseTriple ((fileLines Fesom2p6.elem2dContent).getD (2 * (k.val + 1)) "")
          = some (k.val + 2, k.val + 3, k.val + 2) :=
  ⟨(fesom_2p6_create_reads d fs).2.1, rfl, by decide, by decide, by decide, by decide⟩

/-- C7: mesh-file generation is idempotent (and, being embedded as a pure
function of the target directory and filesystem, deterministic): running
either variant's synthesizer twice yields exactly the same filesystem as
running it once. -/
theorem claim_C7_mesh_idempotent (d : FsPath) (fs : FS) :
    Fesom2p6.create_minimal_mesh_files d (Fesom2p6.create_minimal_mesh_files d fs)
      = Fesom2p6.create_minimal_mesh_files d fs
    ∧ FesomDev.create_minimal_mesh_files d (FesomDev.create_minimal_mesh_files d fs)
      = FesomDev.create_minimal_mesh_files d fs := by
  constructor <;>
    · funext q
      simp only [Fesom2p6.create_minimal_mesh_files, FesomDev.create_minimal_mesh_files,
        Fesom2p6.meshFiles, FesomDev.meshFiles, List.foldl_cons, List.foldl_nil, writeFile]
      split_ifs <;> rfl

/-- C8: the two duplicated per-variant mesh synthesizers are extensionally
equal: on the same target directory and filesystem they produce the same
filesystem, hence the same six files with byte-identical contents. -/
theorem claim_C8_variants_equal (d : FsPath) (fs : FS) :
    Fesom2p6.create_minimal_mesh_files d fs = FesomDev.create_minimal_mesh_files d fs :=
  rfl

/-- C1 counterexample: the claim aligns nod3d record i with nod2d record
((i-1) mod 10)+1; at i = 10 that is nod2d record 10 (lon 301.0, lat 74.5),
but nod3d record 10 is computed from i % 10 = 0 (lon 300.0, lat 74.0), so
the claimed lon/lat equality fails. -/
theorem claim_C1_counterexample :
    parseNod3d ((fileLines Fesom2p6.nod3dContent).getD 10 "")
        = some (10, 3000000000, 740000000, -1000000000, 0)
    ∧ parseNod2d ((fileLines Fesom2p6.nod2dContent).getD 10 "")
        = some (10, 3010000000, 745000000, 0)
    ∧ (parseNod3d ((fileLines Fesom2p6.nod3dContent).getD 10 "")).map nod3dLonLat
        ≠ (parseNod2d ((fileLines Fesom2p6.nod2dContent).getD 10 "")).map nod2dLonLat :=
  ⟨by decide, by decide, by decide⟩

/-- C1 amended: nod3d.out has header "30" and 30 records; record i has
longitude 300.0 + (i mod 10)*0.1 and latitude 74.0 + (i mod 10)*0.05
(units of 1e-7), so it carries the same lon/lat as nod2d record (i mod 10)
whenever i mod 10 is nonzero, while records 10, 20, 30 carry lon 300.0 and
lat 74.0 (the 2D formula at index 0, matching no nod2d record); depth is
-100 times (i div 10); trailing flag 0. -/
theorem claim_C1_amended (d : FsPath) (fs : FS) :
    (Fesom2p6.create_minimal_mesh_files d fs) (d ++ ["nod3d.out"])
        = some Fesom2p6.nod3dContent
    ∧ FesomDev.nod3dContent = Fesom2p6.nod3dContent
    ∧ (fileLines Fesom2p6.nod3dContent).getD 0 "" = "30"
    ∧ (fileLines Fesom2p6.nod3dContent).length = 31
    ∧ (∀ k : Fin 30,
        parseNod3d ((fileLines Fesom2p6.nod3dContent).getD (k.val + 1) "")
          = some (k.val + 1,
              (3000000000 + (k.val + 1) % 10 * 1000000 : Int),
              (740000000 + (k.val + 1) % 10 * 500000 : Int),
              -(1000000000 * (((k.val + 1) / 10 : Nat) : Int)), 0))
    ∧ ∀ k : Fin 30, ((k.val + 1) % 10 = 0) ∨
        (parseNod3d ((fileLines Fesom2p6.nod3dContent).getD (k.val + 1) "")).map nod3dLonLat
          = (parseNod2d ((fileLines Fesom2p6.nod2dContent).getD ((k.val + 1) % 10) "")).map
              nod2dLonLat :=
  ⟨(fesom_2p6_create_reads d fs).2.2.1, rfl, by decide, by decide, by decide, by decide⟩

/-- C2 counterexample: the dev variant's generate_stub_datadir does not
materialize the mesh files: with the identity manifest interpreter and an
empty filesystem, none of the six mesh files exists in the stub root
afterwards (shown here for nod2d.out and depth.out). -/
theorem claim_C2_counterexample :
    (fesom_dev_generate_stub_datadir (fun _ f => f) [] (fun _ => none)).2 ["nod2d.out"] = none
    ∧ (fesom_dev_generate_stub_datadir (fun _ f => f) [] (fun _ => none)).2 ["elem2d.out"] = none
    ∧ (fesom_dev_generate_stub_datadir (fun _ f => f) [] (fun _ => none)).2 ["nod3d.out"] = none
    ∧ (fesom_dev_generate_stub_datadir (fun _ f => f) [] (fun _ => none)).2 ["elem3d.out"] = none
    ∧ (fesom_dev_generate_stub_datadir (fun _ f => f) [] (fun _ => none)).2 ["aux3d.out"] = none
    ∧ (fesom_dev_generate_stub_datadir (fun _ f => f) [] (fun _ => none)).2 ["depth.out"] = none :=
  ⟨rfl, rfl, rfl, rfl, rfl, rfl⟩

/-- C2 amended: in the dev variant, generate_stub_datadir only delegates to
the external manifest interpreter and returns the stub root; it is
generate_stub_meshdir that, after delegating, materializes the six mesh
files directly into the stub root — while the 2.6 variant's
generate_stub_datadir places them under input/fesom/mesh/pi. -/
theorem claim_C2_amended (g : FsPath → FS → FS) (d : FsPath) (fs : FS) :
    fesom_dev_generate_stub_datadir g d fs = (d, g d fs)
    ∧ fsHasFiles d FesomDev.meshFiles (fesom_dev_generate_stub_meshdir g d fs).2
    ∧ fsHasFiles (d ++ ["input", "fesom", "mesh", "pi"]) Fesom2p6.meshFiles
        (fesom_2p6_generate_stub_datadir g d fs).2 :=
  ⟨rfl, fesom_dev_create_reads d (g d fs),
   fesom_2p6_create_reads (d ++ ["input", "fesom", "mesh", "pi"]) (g d fs)⟩

/-- C3: when the cache already contains a completed clone (pi_mesh_git
exists and holds a .git folder), fetch_real_meshdir returns that path,
runs no external command (empty command trace), removes nothing, and any
two calls under this precondition return the same path regardless of the
command runner. -/
theorem claim_C3_cached_clone (cache_dir : FsPath) (r1 r2 : GitCmd → RunOutcome) :
    fesom_dev_fetch_real_meshdir cache_dir true true r1
      = { result := .ok (cache_dir ++ ["pi_mesh_git"]), commands := [],
          removedMeshDir := false }
    ∧ (fesom_dev_fetch_real_meshdir cache_dir true true r1).result
      = (fesom_dev_fetch_real_meshdir cache_dir true true r2).result :=
  ⟨rfl, rfl⟩

/-- C5: fetch_real_datadir of the 2.6 variant returns the nested inner
directory fesom_2p6_pimesh inside the extraction result whenever it
exists, and otherwise returns the outer extraction directory unchanged. -/
theorem claim_C5_datadir_unwrap (ex : FsPath → Bool) (d : FsPath) :
    (ex (d ++ ["fesom_2p6_pimesh"]) = true →
      fesom_2p6_fetch_real_datadir ex d = d ++ ["fesom_2p6_pimesh"])
    ∧ (ex (d ++ ["fesom_2p6_pimesh"]) = false →
      fesom_2p6_fetch_real_datadir ex d = d) := by
  constructor <;> intro h <;> simp [fesom_2p6_fetch_real_datadir, h]

/-- C5 witness: concrete evaluations of both branches. -/
theorem claim_C5_witness :
    fesom_2p6_fetch_real_datadir (fun _ => true) ["data"] = ["data", "fesom_2p6_pimesh"]
    ∧ fesom_2p6_fetch_real_datadir (fun _ => false) ["data"] = ["data"] :=
  ⟨(claim_C5_datadir_unwrap (fun _ => true) ["data"]).1 rfl,
   (claim_C5_datadir_unwrap (fun _ => false) ["data"]).2 rfl⟩

/-- If a string starts with character c, so does any right-extension. -/
theorem strHeadAppend (a b : String) (c : Char) (h : a.data.head? = some c) :
    (a ++ b).data.head? = some c := by
  rw [String.data_append]
  cases ha : a.data with
  | nil => simp [ha] at h
  | cons x xs => simp [ha] at h ⊢; exact h

/-- The clone-failure message always starts with 'F'. -/
theorem cloneFailMsg_head (a b : String) : (cloneFailMsg a b).data.head? = some 'F' :=
  strHeadAppend _ _ _
    (strHeadAppend _ _ _ (strHeadAppend _ _ _ (by decide)))

/-- The timeout message always starts with 'G'. -/
theorem cloneTimeoutMsg_head (t : Nat) : (cloneTimeoutMsg t).data.head? = some 'G' :=
  strHeadAppend _ _ _ (strHeadAppend _ _ _ (by decide))

/-- The missing-binary message differs from every clone-failure message. -/
theorem gitNotFound_ne_cloneFail (a b : String) : gitNotFoundMsg ≠ cloneFailMsg a b := by
  intro h
  have h2 : gitNotFoundMsg.data.head? = (cloneFailMsg a b).data.head? := by rw [h]
  rw [cloneFailMsg_head] at h2
  exact absurd h2 (by decide)

/-- The missing-binary message differs from every timeout message. -/
theorem gitNotFound_ne_timeout (t : Nat) : gitNotFoundMsg ≠ cloneTimeoutMsg t := by
  intro h
  have h2 : gitNotFoundMsg.data.head? = (cloneTimeoutMsg t).data.head? := by rw [h]
  rw [cloneTimeoutMsg_head] at h2
  exact absurd h2 (by decide)

/-- C4: when the cache is not a completed clone, every failure of the probe
or the clone raises (the model returns an error, never a path): a clone
exiting non-zero yields a message containing the captured stderr and
stdout; a probe or clone timeout yields a message containing the timeout
value (10 or 300); a missing binary yields the distinct
"git command not found" message, which names the missing command and
differs from the non-zero-exit, probe-failure and timeout messages. -/
theorem claim_C4_clone_failures (cache_dir : FsPath) (md gm : Bool)
    (run : GitCmd → RunOutcome) (hnc : ¬(md = true ∧ gm = true)) :
    (∀ (rc : Int) (out err o e : String), run .lfsVersion = .completed 0 o e →
        run .gitClone = .completed rc out err → rc ≠ 0 →
        (fesom_dev_fetch_real_meshdir cache_dir md gm run).result
            = .error (cloneFailMsg err out)
          ∧ strContains (cloneFailMsg err out) err
          ∧ strContains (cloneFailMsg err out) out)
    ∧ (run .lfsVersion = .timedOut →
        (fesom_dev_fetch_real_meshdir cache_dir md gm run).result
            = .error (cloneTimeoutMsg 10)
          ∧ strContains (cloneTimeoutMsg 10) "10")
    ∧ (∀ o e, run .lfsVersion = .completed 0 o e → run .gitClone = .timedOut →
        (fesom_dev_fetch_real_meshdir cache_dir md gm run).result
            = .error (cloneTimeoutMsg 300)
          ∧ strContains (cloneTimeoutMsg 300) "300")
    ∧ (run .lfsVersion = .fileNotFound →
        (fesom_dev_fetch_real_meshdir cache_dir md gm run).result = .error gitNotFoundMsg)
    ∧ (∀ o e, run .lfsVersion = .completed 0 o e → run .gitClone = .fileNotFound →
        (fesom_dev_fetch_real_meshdir cache_dir md gm run).result = .error gitNotFoundMsg)
    ∧ strContains gitNotFoundMsg "git"
    ∧ (∀ a b, gitNotFoundMsg ≠ cloneFailMsg a b)
    ∧ gitNotFoundMsg ≠ lfsMissingMsg
    ∧ (∀ t, gitNotFoundMsg ≠ cloneTimeoutMsg t) := by
  have hmg : (md && gm) = false := by
    cases md <;> cases gm <;> simp_all
  refine ⟨?_, ?_, ?_, ?_, ?_, ?_, gitNotFound_ne_cloneFail, by decide,
    gitNotFound_ne_timeout⟩
  · intro rc out err o e h1 h2 h3
    refine ⟨?_, ⟨_, _, rfl⟩, ?_⟩
    · simp [fesom_dev_fetch_real_meshdir, hmg, h1, h2, h3]
    · refine ⟨("Failed to clone mesh repository from " ++ MESH_GIT_REPO
        ++ "\nGit error: ") ++ err ++ "\nGit output: ", "\n", ?_⟩
      simp [cloneFailMsg, String.append_assoc]
  · intro h1
    exact ⟨by simp [fesom_dev_fetch_real_meshdir, hmg, h1],
      ⟨"Git clone timed out after ", " seconds", by decide⟩⟩
  · intro o e h1 h2
    exact ⟨by simp [fesom_dev_fetch_real_meshdir, hmg, h1, h2],
      ⟨"Git clone timed out after ", " seconds", by decide⟩⟩
  · intro h1
    simp [fesom_dev_fetch_real_meshdir, hmg, h1]
  · intro o e h1 h2
    simp [fesom_dev_fetch_real_meshdir, hmg, h1, h2]
  · exact ⟨"", " command not found. Please install git.", by decide⟩

/-- C4 witness: with an empty cache, a succeeding probe and a clone that
exits with code 1, the result is the failure message carrying the captured
stderr and stdout. -/
theorem claim_C4_witness :
    (fesom_dev_fetch_real_meshdir [] false false cloneFailRunner).result
        = .error (cloneFailMsg "errtext" "outtext")
      ∧ strContains (cloneFailMsg "errtext" "outtext") "errtext"
      ∧ strContains (cloneFailMsg "errtext" "outtext") "outtext" :=
  (claim_C4_clone_failures [] false false cloneFailRunner (by simp)).1
    1 "outtext" "errtext" "" "" rfl rfl (by decide)

/-- C9: for every filesystem state, the configs lookup of each variant is a
total function returning a mapping whose keys are among cmip6 and cmip7,
containing exactly those whose fixed fixture config file exists, each
mapped to that file's path; when neither file exists the mapping is
empty. -/
theorem claim_C9_configs (ex : FsPath → Bool) (pkg : FsPath) :
    (((fesom_2p6_configs ex pkg).map Prod.fst).all
        (fun k => k == "cmip6" || k == "cmip7") = true
      ∧ (fesom_2p6_configs ex pkg).lookup "cmip6"
          = (if ex (pkg ++ ["fixtures", "config_cmip6_fesom_2p6.yaml"]) = true
            then some (pkg ++ ["fixtures", "config_cmip6_fesom_2p6.yaml"]) else none)
      ∧ (fesom_2p6_configs ex pkg).lookup "cmip7"
          = (if ex (pkg ++ ["fixtures", "config_cmip7_fesom_2p6.yaml"]) = true
            then some (pkg ++ ["fixtures", "config_cmip7_fesom_2p6.yaml"]) else none)
      ∧ (fesom_2p6_configs ex pkg).length
          = (if ex (pkg ++ ["fixtures", "config_cmip6_fesom_2p6.yaml"]) = true
            then 1 else 0)
            + (if ex (pkg ++ ["fixtures", "config_cmip7_fesom_2p6.yaml"]) = true
            then 1 else 0)
      ∧ (ex (pkg ++ ["fixtures", "config_cmip6_fesom_2p6.yaml"]) = false →
          ex (pkg ++ ["fixtures", "config_cmip7_fesom_2p6.yaml"]) = false →
          fesom_2p6_configs ex pkg = []))
    ∧ (((fesom_dev_configs ex pkg).map Prod.fst).all
        (fun k => k == "cmip6" || k == "cmip7") = true
      ∧ (fesom_dev_configs ex pkg).lookup "cmip6"
          = (if ex (pkg ++ ["fixtures", "config_cmip6_fesom_dev.yaml"]) = true
            then some (pkg ++ ["fixtures", "config_cmip6_fesom_dev.yaml"]) else none)
      ∧ (fesom_dev_configs ex pkg).lookup "cmip7"
          = (if ex (pkg ++ ["fixtures", "config_cmip7_fesom_dev.yaml"]) = true
            then some (pkg ++ ["fixtures", "config_cmip7_fesom_dev.yaml"]) else none)
      ∧ (fesom_dev_configs ex pkg).length
          = (if ex (pkg ++ ["fixtures", "config_cmip6_fesom_dev.yaml"]) = true
            then 1 else 0)
            + (if ex (pkg ++ ["fixtures", "config_cmip7_fesom_dev.yaml"]) = true
            then 1 else 0)
      ∧ (ex (pkg ++ ["fixtures", "config_cmip6_fesom_dev.yaml"]) = false →
          ex (pkg ++ ["fixtures", "config_cmip7_fesom_dev.yaml"]) = false →
          fesom_dev_configs ex pkg = [])) := by
  constructor
  · cases hA : ex (pkg ++ ["fixtures", "config_cmip6_fesom_2p6.yaml"]) <;>
      cases hB : ex (pkg ++ ["fixtures", "config_cmip7_fesom_2p6.yaml"]) <;>
      simp [fesom_2p6_configs, hA, hB, List.lookup]
  · cases hA : ex (pkg ++ ["fixtures", "config_cmip6_fesom_dev.yaml"]) <;>
      cases hB : ex (pkg ++ ["fixtures", "config_cmip7_fesom_dev.yaml"]) <;>
      simp [fesom_dev_configs, hA, hB, List.lookup]

/-- C9 witness: with no fixture files on disk both variants return the
empty mapping. -/
theorem claim_C9_witness :
    fesom_2p6_configs (fun _ => false) [] = []
    ∧ fesom_dev_configs (fun _ => false) [] = [] :=
  ⟨(claim_C9_configs (fun _ => false) []).1.2.2.2.2 rfl rfl,
   (claim_C9_configs (fun _ => false) []).2.2.2.2.2 rfl rfl⟩
